import Mathlib

/-!
Shallow embedding of the cross-validation engine of
`clinica/pipeline/machine_learning/validation.py`.

The source file is Python 2 (it uses `print` statements), so `/` between two
ints is floor division; this matters in `_compute_average_test_error`
(`len(np.where(y != y_hat)[0]) / len(y)`) and in `compute_variance`
(`1 / num_split`).  Machine floats are modelled as rationals; a missing value
(NaN) in a metrics column is modelled as `none`.  Python dictionaries with
string keys are modelled as association lists, and a raised `KeyError` /
`ValueError` as an `Except` error value.
-/

namespace Clinica

/-- A train/test index pair, as produced by one split of
`StratifiedKFold.split` or `StratifiedShuffleSplit.split`. -/
abbrev Partition := List Nat × List Nat

/-! ### Variance estimator (`RepeatedSplit.compute_variance`) -/

/-- One entry of `RepeatedSplit._split_results` as used by `compute_variance`:
the true labels `y` and the predicted labels `y_hat` of one split. -/
structure SplitResult where
  y : List Int
  yHat : List Int

/-- `len(np.where(y_list != yhat_list)[0])`: the number of positions where the
true and predicted labels differ. -/
def numMismatch (y yhat : List Int) : Nat :=
  (List.zip y yhat).countP (fun p => decide (p.1 ≠ p.2))

/-- `RepeatedSplit._compute_average_test_error`: Python 2 floor division of the
mismatch count by the test-set size, so the result is a machine int. -/
def avgTestError (y yhat : List Int) : Nat :=
  numMismatch y yhat / y.length

/-- `np.mean` of a vector. -/
def npMean (v : List ℚ) : ℚ := v.sum / v.length

/-- The squared euclidean norm `np.linalg.norm(v) ** 2`. -/
def normSq (v : List ℚ) : ℚ := (v.map (fun x => x ^ 2)).sum

/-- The uncorrected resampled variance computed by `compute_variance`:
`np.linalg.norm(test_error_split - average_test_error) ** 2 / (num_split - 1)`. -/
def resampledT (errs : List ℚ) : ℚ :=
  normSq (errs.map (fun e => e - npMean errs)) / ((errs.length : ℚ) - 1)

/-- The factor `1 / num_split + test_size / (1 - test_size)` exactly as the
Python 2 source evaluates it: `num_split` is an int, so `1 / num_split` is
floor division (hence `0` whenever `num_split > 1`), while the `test_size`
part is float division. -/
def correctedFactor (J : Nat) (ts : ℚ) : ℚ :=
  ((1 / J : Nat) : ℚ) + ts / (1 - ts)

/-- `compute_variance` given the per-split average test errors: returns the
pair (resampled_t, corrected_resampled_t). -/
def computeVarianceFromErrors (errs : List ℚ) (ts : ℚ) : ℚ × ℚ :=
  let rt := resampledT errs
  (rt, correctedFactor errs.length ts * rt)

/-- `RepeatedSplit.compute_variance`: derives the per-split average test error
from each stored split result, then computes the two variance scalars. -/
def computeVariance (rs : List SplitResult) (ts : ℚ) : ℚ × ℚ :=
  computeVarianceFromErrors (rs.map (fun r => (avgTestError r.y r.yHat : ℚ))) ts

/-! ### Parallel evaluator (`KFoldCV.validate` / `RepeatedSplit.validate`)

Each partition index is dispatched to the thread pool; the pool completes the
tasks in some arbitrary order, each task storing its value under its own
index; after the join barrier the results are gathered by index lookup
(`async_result[i].get()` for `i` in `0..n-1`). -/

/-- The store built by the pool when tasks complete in the order given by
`order`: an index-keyed scatter. -/
def runTasks (f : Nat → α) (order : List Nat) : List (Nat × α) :=
  order.map (fun i => (i, f i))

/-- The gather loop: for each index `i` in `0..n-1`, look up the result slot
written by task `i`. -/
def gatherResults (store : List (Nat × α)) (n : Nat) : List (Option α) :=
  (List.range n).map (fun i => List.lookup i store)

/-- One `validate` call of the k-fold scheme, parametrised by the order in
which the pool happens to complete the per-partition tasks. -/
def kfoldValidate (ps : List Partition) (evaluate : Partition → α)
    (order : List Nat) : List (Option α) :=
  gatherResults (runTasks (fun i => evaluate (ps.getD i ([], []))) order) ps.length

/-! ### Failure propagation -/

/-- The gather loop when tasks may raise: `async_result[i].get()` re-raises
the exception stored by task `i`, so the first failing index in gather order
aborts the loop with the task exception itself. -/
def gatherExcept : List (Except ε α) → Except ε (List α)
  | [] => Except.ok []
  | Except.error e :: _ => Except.error e
  | Except.ok r :: rest => (gatherExcept rest).map (fun l => r :: l)

/-- `validate` when the evaluate callback may raise: evaluate every
partition, then gather in index order, propagating the first failure. -/
def validateOrFail (ps : List Partition) (evaluate : Partition → Except ε α) :
    Except ε (List α) :=
  gatherExcept (ps.map evaluate)

/-! ### Validator state across calls (`KFoldCV.__init__` / `validate`) -/

/-- The mutable attributes of a `KFoldCV` object that `validate` touches:
`_cv` (initialised to `None`) and `_fold_results` (initialised to `[]`). -/
structure KFoldState (α : Type) where
  cv : Option (List Partition)
  foldResults : List α

/-- `KFoldCV.__init__`: `_cv = None`, `_fold_results = []`. -/
def kfoldInit : KFoldState α := ⟨none, []⟩

/-- One `validate` call on a `KFoldCV` object: `_cv` is overwritten with the
freshly generated partition list, while the gather loop appends this call's
results to the existing `_fold_results` list; the method returns
`self._fold_results`. -/
def validateCall (s : KFoldState α) (ps : List Partition)
    (evaluate : Partition → α) : KFoldState α × List α :=
  let results := s.foldResults ++ ps.map evaluate
  (⟨some ps, results⟩, results)

/-! ### Result aggregation -/

/-- One row of a per-fold metrics table; `none` models a NaN entry.  Field
order follows the dict literal in `save_results`. -/
structure MetricsRow where
  balancedAccuracy : Option ℚ
  auc : Option ℚ
  accuracy : Option ℚ
  sensitivity : Option ℚ
  specificity : Option ℚ
  ppv : Option ℚ
  npv : Option ℚ

/-- The seven metric columns of a results table. -/
inductive Metric where
  | balancedAccuracy
  | auc
  | accuracy
  | sensitivity
  | specificity
  | ppv
  | npv
  deriving DecidableEq

/-- Column projection out of a metrics row. -/
def getMetric : Metric → MetricsRow → Option ℚ
  | Metric.balancedAccuracy, r => r.balancedAccuracy
  | Metric.auc, r => r.auc
  | Metric.accuracy, r => r.accuracy
  | Metric.sensitivity, r => r.sensitivity
  | Metric.specificity, r => r.specificity
  | Metric.ppv, r => r.ppv
  | Metric.npv, r => r.npv

/-- `np.nanmean` of one column: the mean of the non-NaN entries, NaN when all
entries are NaN. -/
def nanmean (xs : List (Option ℚ)) : Option ℚ :=
  let vs := xs.filterMap id
  if vs.isEmpty then none else some (vs.sum / vs.length)

/-- `results_df.apply(np.nanmean)` row: the column-wise NaN-skipping mean of a
metrics table, one entry per metric column. -/
def aggregateMean (rows : List MetricsRow) : MetricsRow :=
  ⟨nanmean (rows.map MetricsRow.balancedAccuracy),
   nanmean (rows.map MetricsRow.auc),
   nanmean (rows.map MetricsRow.accuracy),
   nanmean (rows.map MetricsRow.sensitivity),
   nanmean (rows.map MetricsRow.specificity),
   nanmean (rows.map MetricsRow.ppv),
   nanmean (rows.map MetricsRow.npv)⟩

/-- The aggregation loop of `RepeatedKFoldCV.save_results`: for each
iteration, the per-fold single-row tables are concatenated into
`iteration_results_df` and their NaN-skipping column mean is appended to
`all_results_list`; afterwards `all_results_df` is the concatenation of those
mean rows, and the outer `mean_results_df` is their NaN-skipping column mean. -/
def repeatedKFoldAggregate (iters : List (List MetricsRow)) :
    List MetricsRow × MetricsRow :=
  let allResultsList := iters.foldl
    (fun acc itRows =>
      let iterationResults := itRows.foldl (fun t r => t ++ [r]) []
      acc ++ [aggregateMean iterationResults]) []
  (allResultsList, aggregateMean allResultsList)

/-! ### `save_results`: dict shape of a fold result and the write sequence -/

/-- A Python value as stored in a fold-result dict: a number, a label array,
or a nested dict with string keys. -/
inductive PyVal where
  | num : ℚ → PyVal
  | arr : List ℚ → PyVal
  | dict : List (String × PyVal) → PyVal

/-- `d[k]` on a Python dict: `KeyError k` when the key is absent (or the
value subscripted is not a dict). -/
def getItem : PyVal → String → Except String PyVal
  | PyVal.dict kvs, k =>
    match List.lookup k kvs with
    | some v => Except.ok v
    | none => Except.error k
  | _, k => Except.error k

def keyY : String := "y"
def keyYHat : String := "y_hat"
def keyYIndex : String := "y_index"
def keyEvaluation : String := "evaluation"
def keyBalancedAccuracy : String := "balanced_accuracy"
def keyAuc : String := "auc"
def keyAccuracy : String := "accuracy"
def keySensitivity : String := "sensitivity"
def keySpecificity : String := "specificity"
def keyPpv : String := "ppv"
def keyNpv : String := "npv"

/-- Building `subjects_df` for one fold: the three key lookups
`r['y']`, `r['y_hat']`, `r['y_index']` in source order. -/
def buildSubjectsDf (r : PyVal) : Except String (PyVal × PyVal × PyVal) := do
  let y ← getItem r keyY
  let yh ← getItem r keyYHat
  let yi ← getItem r keyYIndex
  Except.ok (y, yh, yi)

/-- Building `results_df` for one fold: the dict-literal values are evaluated
in source order, so `r['evaluation']['balanced_accuracy']` is looked up first,
then `r['auc']`, then the remaining five metrics under `r['evaluation']`. -/
def buildResultsRow (r : PyVal) : Except String (List (String × PyVal)) := do
  let ev ← getItem r keyEvaluation
  let ba ← getItem ev keyBalancedAccuracy
  let auc ← getItem r keyAuc
  let acc ← getItem ev keyAccuracy
  let sen ← getItem ev keySensitivity
  let spe ← getItem ev keySpecificity
  let ppv ← getItem ev keyPpv
  let npv ← getItem ev keyNpv
  Except.ok [(keyBalancedAccuracy, ba), (keyAuc, auc), (keyAccuracy, acc),
             (keySensitivity, sen), (keySpecificity, spe), (keyPpv, ppv),
             (keyNpv, npv)]

/-- How a `KFoldCV.save_results` call can fail: a dict `KeyError`, the
`ValueError` that `pd.concat` raises on an empty list, or the guarded
no-results error. -/
inductive SaveError where
  | keyError : String → SaveError
  | emptyConcat : SaveError
  | noResults : SaveError
  deriving DecidableEq

def foldsDir : String := "folds"
def fileSubjects : String := "subjects.tsv"
def fileResults : String := "results.tsv"
def fileMeanResults : String := "mean_results.tsv"

/-- Path of the per-fold subjects file inside `folds/`. -/
def subjectsFoldFile (i : Nat) : String :=
  foldsDir ++ "/subjects_fold-" ++ toString i ++ ".tsv"

/-- Path of the per-fold results file inside `folds/`. -/
def resultsFoldFile (i : Nat) : String :=
  foldsDir ++ "/results_fold-" ++ toString i ++ ".tsv"

/-- The per-fold loop of `KFoldCV.save_results`: for each fold, build and
write the subjects table, then build and write the single-row results table;
a `KeyError` aborts the loop, keeping whatever was already written. -/
def saveFoldLoop : List PyVal → Nat → List String → List String × Option SaveError
  | [], _, created => (created, none)
  | r :: rest, i, created =>
    match buildSubjectsDf r with
    | Except.error k => (created, some (SaveError.keyError k))
    | Except.ok _ =>
      let created1 := created ++ [subjectsFoldFile i]
      match buildResultsRow r with
      | Except.error k => (created1, some (SaveError.keyError k))
      | Except.ok _ =>
        saveFoldLoop rest (i + 1) (created1 ++ [resultsFoldFile i])

/-- `KFoldCV.save_results`: the guard compares `self._fold_results` with
`None`; past the guard the `folds/` directory is created, the per-fold loop
runs, and then `pd.concat` over the collected tables (raising `ValueError`
when the list is empty) feeds the `subjects.tsv`, `results.tsv` and
`mean_results.tsv` writes.  Returns the filesystem entries created, in
creation order, paired with the failure if one was raised. -/
def kfoldSaveResults (foldResults : Option (List PyVal)) :
    List String × Option SaveError :=
  match foldResults with
  | none => ([], some SaveError.noResults)
  | some rs =>
    match saveFoldLoop rs 0 [foldsDir] with
    | (created, some e) => (created, some e)
    | (created, none) =>
      if rs.isEmpty then (created, some SaveError.emptyConcat)
      else (created ++ [fileSubjects, fileResults, fileMeanResults], none)

/-- The `_fold_results` attribute as `KFoldCV.__init__` leaves it: the empty
list, not `None`. -/
def kfoldInitFoldResults : Option (List PyVal) := some []

/-! ### Concrete fixtures -/

/-- `Except.isOk` as a boolean, to state that a task did not raise. -/
def isOkB : Except ε α → Bool
  | Except.ok _ => true
  | Except.error _ => false

/-- A ten-partition `PartitionSet`: partition `i` holds train set `[i]` and
test set `[i]`. -/
def tenPartitions : List Partition := (List.range 10).map (fun i => ([i], [i]))

/-- The message of the exception raised inside a failing evaluate task. -/
def boomMsg : String := "classifier failed"

/-- An evaluate callback that raises on the partition whose test set is `[k]`
and returns the test-set size everywhere else. -/
def failAt (k : Nat) : Partition → Except String Nat :=
  fun p => if p.2 = [k] then Except.error boomMsg else Except.ok p.2.length

/-- A two-partition `PartitionSet` for exercising repeated `validate` calls. -/
def twoPartitions : List Partition := [([0], [1]), ([1], [0])]

/-- An evaluate callback returning the test-set size of its partition. -/
def testSetSize (p : Partition) : Nat := p.2.length

/-- A fold-result dict holding the label arrays and all seven metrics as a
flat bag, with no `evaluation` sub-dict. -/
def flatKvs : List (String × PyVal) :=
  [(keyY, PyVal.arr [0, 1]), (keyYHat, PyVal.arr [0, 0]),
   (keyYIndex, PyVal.arr [3, 4]),
   (keyBalancedAccuracy, PyVal.num (1/2)), (keyAuc, PyVal.num (1/2)),
   (keyAccuracy, PyVal.num (1/2)), (keySensitivity, PyVal.num 1),
   (keySpecificity, PyVal.num 0), (keyPpv, PyVal.num (1/2)),
   (keyNpv, PyVal.num 0)]

/-- A three-row metrics table whose auc column is `[1, NaN, 2]` and whose
other columns are all NaN. -/
def mixedRows : List MetricsRow :=
  [⟨none, some 1, none, none, none, none, none⟩,
   ⟨none, none, none, none, none, none, none⟩,
   ⟨none, some 2, none, none, none, none, none⟩]

/-! ## Theorems -/

/-- Claim C1: the claim states that `compute_variance` returns
`(1/J + test_size/(1 - test_size)) * uncorrected`, and for errors
`[0.1, 0.2, 0.15, 0.25]` with `test_size = 0.3` a factor of `1/4 + 0.3/0.7`.
The source is Python 2, where `1 / num_split` is integer division and equals
`0` for `num_split = 4`: the code multiplies by `0.3/0.7 = 3/7` alone, not by
`1/4 + 3/7 = 19/28`. -/
theorem corrected_variance_drops_one_over_J :
    (computeVarianceFromErrors [1/10, 1/5, 3/20, 1/4] (3/10)).2
        = (3/10 / (1 - 3/10)) * (computeVarianceFromErrors [1/10, 1/5, 3/20, 1/4] (3/10)).1 ∧
      (computeVarianceFromErrors [1/10, 1/5, 3/20, 1/4] (3/10)).1 = 1/240 ∧
      (computeVarianceFromErrors [1/10, 1/5, 3/20, 1/4] (3/10)).2
        ≠ (1/4 + 3/10 / (1 - 3/10)) * (computeVarianceFromErrors [1/10, 1/5, 3/20, 1/4] (3/10)).1 := by
  refine ⟨?_, ?_, ?_⟩ <;>
    norm_num [computeVarianceFromErrors, resampledT, normSq, npMean, correctedFactor]

/-- Claim C2: the claim states that the average test error is the exact
quotient `mismatches / test size`, e.g. `0.1` for 1 mismatch out of 10.  The
source divides two Python 2 ints, so the quotient is floored: with exactly one
mismatch out of ten samples `_compute_average_test_error` returns `0`, not
`0.1`. -/
theorem average_test_error_floors_quotient :
    numMismatch [0,0,0,0,0,0,0,0,0,0] [1,0,0,0,0,0,0,0,0,0] = 1 ∧
      avgTestError [0,0,0,0,0,0,0,0,0,0] [1,0,0,0,0,0,0,0,0,0] = 0 ∧
      ((avgTestError [0,0,0,0,0,0,0,0,0,0] [1,0,0,0,0,0,0,0,0,0] : ℕ) : ℚ) ≠ 1/10 := by
  refine ⟨by decide, by decide, ?_⟩
  have h0 : avgTestError [0,0,0,0,0,0,0,0,0,0] [1,0,0,0,0,0,0,0,0,0] = 0 := by decide
  rw [h0]
  norm_num

/-- Claim C3: for J > 1 per-partition average test errors, the uncorrected
resampled variance returned by `compute_variance` is the sample variance with
a `J - 1` denominator: `Σ (err − μ̄)² / (J − 1)` with `μ̄` the mean of the
errors. -/
theorem uncorrected_variance_is_sample_variance (errs : List ℚ) (ts : ℚ)
    (_hJ : 1 < errs.length) :
    (computeVarianceFromErrors errs ts).1
      = (errs.map (fun e => (e - errs.sum / (errs.length : ℚ)) ^ 2)).sum /
          ((errs.length : ℚ) - 1) := by
  simp only [computeVarianceFromErrors, resampledT, normSq, npMean,
    List.map_map, Function.comp_def]

/-- Witness for C3 at the spec instance `[0.1, 0.2, 0.15, 0.25]`. -/
theorem uncorrected_variance_is_sample_variance_witness :
    1 < ([1/10, 1/5, 3/20, 1/4] : List ℚ).length ∧
      (computeVarianceFromErrors [1/10, 1/5, 3/20, 1/4] (3/10)).1
        = (([1/10, 1/5, 3/20, 1/4] : List ℚ).map
            (fun e => (e - ([1/10, 1/5, 3/20, 1/4] : List ℚ).sum /
              ((([1/10, 1/5, 3/20, 1/4] : List ℚ).length : ℚ))) ^ 2)).sum /
            ((([1/10, 1/5, 3/20, 1/4] : List ℚ).length : ℚ) - 1) :=
  ⟨by decide, uncorrected_variance_is_sample_variance [1/10, 1/5, 3/20, 1/4] (3/10) (by decide)⟩

/-- Claim C5: the claim states that `save_results` before `validate` raises
the no-results error and writes nothing.  The guard compares `_fold_results`
with `None`, but `__init__` sets it to the empty list, so on a fresh validator
the guard is passed: the `folds/` directory is created and the call dies in
`pd.concat` on an empty list, not with the no-results error. -/
theorem save_results_guard_never_fires :
    kfoldSaveResults kfoldInitFoldResults = ([foldsDir], some SaveError.emptyConcat) ∧
      SaveError.emptyConcat ≠ SaveError.noResults := by
  exact ⟨rfl, by decide⟩

/-- Looking up an index in the index-keyed store always yields that index's
own task value, whatever order the tasks completed in. -/
theorem lookup_runTasks (f : Nat → α) (l : List Nat) (i : Nat) (hi : i ∈ l) :
    List.lookup i (runTasks f l) = some (f i) := by
  induction l with
  | nil => cases hi
  | cons j t ih =>
    by_cases hj : i = j
    · subst hj
      simp [runTasks, List.lookup]
    · have hmem : i ∈ t := by
        rcases List.mem_cons.mp hi with h | h
        · exact absurd h hj
        · exact h
      have hfalse : (i == j) = false := by simp [hj]
      simp only [runTasks, List.map_cons, List.lookup, hfalse]
      simpa [runTasks] using ih hmem

/-- Claim C4: whatever order the pool completes the tasks in (any permutation
of the partition indices), the i-th gathered fold result is the value of
`evaluate` on the i-th partition of the `PartitionSet`. -/
theorem validate_gather_preserves_index (ps : List Partition)
    (evaluate : Partition → α) (order : List Nat)
    (hperm : order.Perm (List.range ps.length)) (i : Nat) (hi : i < ps.length) :
    (kfoldValidate ps evaluate order).getD i none
      = some (evaluate (ps.getD i ([], []))) := by
  have hmem : i ∈ order := hperm.mem_iff.mpr (List.mem_range.mpr hi)
  unfold kfoldValidate gatherResults
  rw [List.getD_eq_getElem?_getD, List.getElem?_map, List.getElem?_range hi]
  simpa using lookup_runTasks (fun j => evaluate (ps.getD j ([], []))) order i hmem

/-- Witness for C4: three partitions dispatched, completing in order 2, 0, 1;
slot 1 still holds the evaluation of partition 1. -/
theorem validate_gather_preserves_index_witness :
    ([2, 0, 1] : List Nat).Perm
        (List.range ([([0], [1]), ([1], [2]), ([2], [0])] : List Partition).length) ∧
      1 < ([([0], [1]), ([1], [2]), ([2], [0])] : List Partition).length ∧
      (kfoldValidate [([0], [1]), ([1], [2]), ([2], [0])]
          (fun p => p.2) [2, 0, 1]).getD 1 none
        = some ((([([0], [1]), ([1], [2]), ([2], [0])] : List Partition).getD 1 ([], [])).2) :=
  ⟨by decide, by decide,
    validate_gather_preserves_index [([0], [1]), ([1], [2]), ([2], [0])]
      (fun p => p.2) [2, 0, 1] (by decide) 1 (by decide)⟩

/-- If the gather loop meets a first failing slot, the loop aborts with that
task's own exception value. -/
theorem gatherExcept_first_error (l : List (Except ε α)) (i : Nat) (e : ε)
    (hfail : l[i]? = some (Except.error e))
    (hok : ∀ j, j < i → ∀ x, l[j]? = some x → isOkB x = true) :
    gatherExcept l = Except.error e := by
  induction l generalizing i with
  | nil => simp at hfail
  | cons x t ih =>
    cases i with
    | zero =>
      simp only [List.getElem?_cons_zero, Option.some_inj] at hfail
      subst hfail
      rfl
    | succ n =>
      have hx : isOkB x = true :=
        hok 0 (Nat.succ_pos n) x (by simp)
      cases x with
      | error ex => simp [isOkB] at hx
      | ok r =>
        have ht : gatherExcept t = Except.error e := by
          refine ih n (by simpa using hfail) ?_
          intro j hj y hy
          exact hok (j + 1) (Nat.succ_lt_succ hj) y (by simpa using hy)
        simp [gatherExcept, ht, Except.map]

/-- Counterexample for C6: two runs over the same ten partitions, one whose
task raises at partition index 2 and one whose task raises at partition index
5, surface the very same failure value to the caller -- the propagated
exception carries no partition index. -/
theorem task_failure_surfaces_without_index :
    validateOrFail tenPartitions (failAt 2) = Except.error boomMsg ∧
      validateOrFail tenPartitions (failAt 5) = Except.error boomMsg ∧
      validateOrFail tenPartitions (failAt 2) = validateOrFail tenPartitions (failAt 5) ∧
      (2 : Nat) ≠ 5 := by
  exact ⟨rfl, rfl, rfl, by decide⟩

/-- Claim C6 (amended): if the evaluate task of partition `i` raises and all
earlier tasks succeed, `validate` fails with that task's exception instead of
returning a fold-result sequence, so no aggregate table can be produced; the
surfaced exception is the task's own value and carries no partition index. -/
theorem validate_fails_on_task_exception (ps : List Partition)
    (f : Partition → Except ε α) (i : Nat) (e : ε) (hi : i < ps.length)
    (hfail : f (ps.getD i ([], [])) = Except.error e)
    (hok : ∀ j, j < i → isOkB (f (ps.getD j ([], []))) = true) :
    validateOrFail ps f = Except.error e ∧
      ∀ rs, validateOrFail ps f ≠ Except.ok rs := by
  have hmain : validateOrFail ps f = Except.error e := by
    unfold validateOrFail
    refine gatherExcept_first_error (ps.map f) i e ?_ ?_
    · rw [List.getElem?_map, List.getElem?_eq_getElem hi]
      simp only [Option.map_some']
      rw [← hfail, List.getD_eq_getElem?_getD, List.getElem?_eq_getElem hi]
      rfl
    · intro j hj y hy
      have hjlen : j < ps.length := Nat.lt_trans hj hi
      rw [List.getElem?_map, List.getElem?_eq_getElem hjlen] at hy
      simp only [Option.map_some', Option.some_inj] at hy
      subst hy
      have := hok j hj
      rwa [List.getD_eq_getElem?_getD, List.getElem?_eq_getElem hjlen] at this
  exact ⟨hmain, by intro rs h; rw [hmain] at h; cases h⟩

/-- Witness for C6 (amended): the run failing at partition index 2 of the ten
partitions. -/
theorem validate_fails_on_task_exception_witness :
    2 < tenPartitions.length ∧
      failAt 2 (tenPartitions.getD 2 ([], [])) = Except.error boomMsg ∧
      (validateOrFail tenPartitions (failAt 2) = Except.error boomMsg ∧
        ∀ rs, validateOrFail tenPartitions (failAt 2) ≠ Except.ok rs) :=
  ⟨by decide, rfl,
    validate_fails_on_task_exception tenPartitions (failAt 2) 2 boomMsg
      (by decide) rfl (by decide)⟩

/-- Selecting a metric column of the mean row is `np.nanmean` of that column
of the input table. -/
theorem getMetric_aggregateMean (m : Metric) (rows : List MetricsRow) :
    getMetric m (aggregateMean rows) = nanmean (rows.map (getMetric m)) := by
  cases m <;> rfl

/-- Claim C7: in the mean-metrics row, every one of the seven metric columns
that contains a missing value in some rows but a value in at least one row is
averaged over the non-missing entries only -- the mean entry is that average,
not NaN. -/
theorem mean_row_skips_nan (m : Metric) (rows : List MetricsRow)
    (_hmiss : none ∈ rows.map (getMetric m))
    (hpres : ∃ q : ℚ, some q ∈ rows.map (getMetric m)) :
    getMetric m (aggregateMean rows)
      = some (((rows.map (getMetric m)).filterMap id).sum /
          (((rows.map (getMetric m)).filterMap id).length : ℚ)) := by
  rcases hpres with ⟨q, hq⟩
  rw [getMetric_aggregateMean]
  have hne : ((rows.map (getMetric m)).filterMap id).isEmpty = false := by
    have hmem : q ∈ (rows.map (getMetric m)).filterMap id :=
      List.mem_filterMap.mpr ⟨some q, hq, rfl⟩
    rcases h : (rows.map (getMetric m)).filterMap id with _ | ⟨a, t⟩
    · rw [h] at hmem; cases hmem
    · rfl
  simp only [nanmean, hne, Bool.false_eq_true, if_false]

/-- Witness for C7: the auc column of a three-row table with a NaN in the
middle row averages to the mean of its two present entries. -/
theorem mean_row_skips_nan_witness :
    none ∈ mixedRows.map (getMetric Metric.auc) ∧
      getMetric Metric.auc (aggregateMean mixedRows)
        = some (((mixedRows.map (getMetric Metric.auc)).filterMap id).sum /
            (((mixedRows.map (getMetric Metric.auc)).filterMap id).length : ℚ)) :=
  ⟨by decide, mean_row_skips_nan Metric.auc mixedRows (by decide) ⟨1, by decide⟩⟩

/-- Appending elements one by one to an accumulator list is the same as
appending their image list. -/
theorem foldl_push_eq_map (g : α → β) (l : List α) :
    ∀ acc : List β, l.foldl (fun t r => t ++ [g r]) acc = acc ++ l.map g := by
  induction l with
  | nil => intro acc; simp
  | cons x t ih => intro acc; simp [ih]

/-- Claim C8: the aggregation of the repeated scheme is the single-scheme
aggregation applied twice: the outer results table is one mean row per
iteration, and the outer mean row is the column mean over those iteration
means. -/
theorem repeated_aggregation_is_two_level (iters : List (List MetricsRow)) :
    repeatedKFoldAggregate iters
      = (iters.map aggregateMean, aggregateMean (iters.map aggregateMean)) := by
  have hinner : ∀ itRows : List MetricsRow,
      itRows.foldl (fun t r => t ++ [r]) [] = itRows := by
    intro itRows
    simpa using foldl_push_eq_map (fun r : MetricsRow => r) itRows []
  have houter : iters.foldl
      (fun acc itRows =>
        acc ++ [aggregateMean (itRows.foldl (fun t r => t ++ [r]) [])]) []
      = iters.map (fun itRows => aggregateMean (itRows.foldl (fun t r => t ++ [r]) [])) := by
    simpa using foldl_push_eq_map
      (fun itRows : List MetricsRow => aggregateMean (itRows.foldl (fun t r => t ++ [r]) []))
      iters []
  have hmaps : iters.map (fun itRows => aggregateMean (itRows.foldl (fun t r => t ++ [r]) []))
      = iters.map aggregateMean :=
    List.map_congr_left (fun itRows _ => by rw [hinner itRows])
  simp only [repeatedKFoldAggregate, houter, hmaps]

/-- Counterexample for C9: a second `validate` call on the same `KFoldCV`
object with a two-partition scheme returns four fold results -- the first
call's results are still in `_fold_results` -- where the claim says the
returned sequence holds only the second call's two results. -/
theorem second_validate_returns_accumulated_results :
    (validateCall (validateCall (kfoldInit : KFoldState Nat) twoPartitions
        testSetSize).1 twoPartitions testSetSize).2.length = 4 ∧
      (4 : Nat) ≠ 2 := by
  exact ⟨rfl, by decide⟩

/-- Claim C9 (amended): each `validate` call overwrites `_cv` with the freshly
generated `PartitionSet` (no caching), and a first call on a fresh validator
returns exactly its own results; but `_fold_results` is never reset, so a
second call returns the first call's results followed by its own. -/
theorem validate_fresh_partitions_but_accumulated_results
    (ps1 ps2 : List Partition) (f1 f2 : Partition → α) :
    (validateCall (kfoldInit : KFoldState α) ps1 f1).2 = ps1.map f1 ∧
      (validateCall (validateCall (kfoldInit : KFoldState α) ps1 f1).1 ps2 f2).1.cv
        = some ps2 ∧
      (validateCall (validateCall (kfoldInit : KFoldState α) ps1 f1).1 ps2 f2).2
        = ps1.map f1 ++ ps2.map f2 := by
  exact ⟨by simp [validateCall, kfoldInit], rfl, by simp [validateCall, kfoldInit]⟩

/-- Claim C10: a fold-result dict whose label arrays are readable but whose
seven metrics sit flat at top level (no `evaluation` key) makes the results
row construction raise `KeyError evaluation`, so `save_results` stops after
the per-fold subjects file and never writes the per-partition results table or
the mean table. -/
theorem flat_metrics_bag_raises_key_error (kvs : List (String × PyVal))
    (hflat : List.lookup keyEvaluation kvs = none)
    (hsubj : ∃ s, buildSubjectsDf (PyVal.dict kvs) = Except.ok s) :
    buildResultsRow (PyVal.dict kvs) = Except.error keyEvaluation ∧
      (kfoldSaveResults (some [PyVal.dict kvs])).2
        = some (SaveError.keyError keyEvaluation) ∧
      fileResults ∉ (kfoldSaveResults (some [PyVal.dict kvs])).1 ∧
      fileMeanResults ∉ (kfoldSaveResults (some [PyVal.dict kvs])).1 := by
  have hrow : buildResultsRow (PyVal.dict kvs) = Except.error keyEvaluation := by
    simp only [buildResultsRow, getItem, hflat]
    rfl
  rcases hsubj with ⟨s, hs⟩
  have hsave : kfoldSaveResults (some [PyVal.dict kvs])
      = ([foldsDir, subjectsFoldFile 0], some (SaveError.keyError keyEvaluation)) := by
    simp only [kfoldSaveResults, saveFoldLoop, hs, hrow]
    rfl
  refine ⟨hrow, by rw [hsave], ?_, ?_⟩ <;> rw [hsave] <;> decide

/-- Witness for C10 at a concrete flat dict carrying the two label arrays and
the seven metrics at top level. -/
theorem flat_metrics_bag_raises_key_error_witness :
    List.lookup keyEvaluation flatKvs = none ∧
      (buildResultsRow (PyVal.dict flatKvs) = Except.error keyEvaluation ∧
        (kfoldSaveResults (some [PyVal.dict flatKvs])).2
          = some (SaveError.keyError keyEvaluation) ∧
        fileResults ∉ (kfoldSaveResults (some [PyVal.dict flatKvs])).1 ∧
        fileMeanResults ∉ (kfoldSaveResults (some [PyVal.dict flatKvs])).1) :=
  ⟨rfl, flat_metrics_bag_raises_key_error flatKvs rfl
    ⟨(PyVal.arr [0, 1], PyVal.arr [0, 0], PyVal.arr [3, 4]), rfl⟩⟩

end Clinica
